import Mathlib

/-
Verification of generate_images.py (repository 1minds3t/github_stats).

Every definition below is a shallow embedding of the corresponding Python
code in src/generate_images.py.  Python strings are Lean Strings,
Python ints are Nat or Int (no overflow: Python ints are unbounded),
raised exceptions are the error side of Except String, and the single
awaitable passed to the retry wrapper is modelled with Python's real
coroutine semantics: it runs once, and awaiting it again raises
RuntimeError "cannot reuse already awaited coroutine".
-/

namespace GenerateImages

/-- Substring containment on character lists: Python's `needle in hay`. -/
def containsSub (hay needle : List Char) : Bool :=
  match hay with
  | [] => needle.isEmpty
  | _ :: t => needle.isPrefixOf hay || containsSub t needle

/-- Python's `sub in s` for strings. -/
def strContains (s sub : String) : Bool :=
  containsSub s.data sub.data

/-- Embedding of the condition on line 48 of generate_images.py:
`"202" in str(e) or "Accepted" in str(e)`. -/
def is_processing_error (msg : String) : Bool :=
  strContains msg "202" || strContains msg "Accepted"

/-- Result of one run of safe_get_stat (lines 38-60).  `result` is the
returned value (`Except.ok none` models the final `return None`, reachable
only when the loop runs zero iterations), `waits` the argument of each
`asyncio.sleep` in order, and `awaitCount` how many times `await coroutine`
was executed. -/
structure RunTrace (α : Type) where
  result : Except String (Option α)
  waits : List Nat
  awaitCount : Nat

instance {ε α : Type} [DecidableEq ε] [DecidableEq α] :
    DecidableEq (Except ε α) := fun x y =>
  match x, y with
  | Except.error a, Except.error b =>
    if h : a = b then isTrue (by rw [h]) else isFalse (by simp [h])
  | Except.ok a, Except.ok b =>
    if h : a = b then isTrue (by rw [h]) else isFalse (by simp [h])
  | Except.error _, Except.ok _ => isFalse (fun h => Except.noConfusion h)
  | Except.ok _, Except.error _ => isFalse (fun h => Except.noConfusion h)

instance {α : Type} [DecidableEq α] : DecidableEq (RunTrace α) :=
  fun a b =>
    decidable_of_iff
      (a.result = b.result ∧ a.waits = b.waits ∧ a.awaitCount = b.awaitCount)
      (by cases a; cases b; simp)

/-- Awaiting a Python coroutine object: the first await runs it and yields
its outcome; any later await raises
RuntimeError("cannot reuse already awaited coroutine").  `outcome` is what
the coroutine's single execution produces, `used` whether it has already
been awaited. -/
def await_coroutine (outcome : Except String α) (used : Bool) :
    Except String α × Bool :=
  if used then (Except.error "cannot reuse already awaited coroutine", true)
  else (outcome, true)

/-- The `for attempt in range(max_retries + 1)` loop of safe_get_stat
(lines 42-59), one constructor case per remaining iteration.  On success the
value is returned; on an error carrying the processing marker the wrapper
sleeps `delay * 2 ** attempt` and continues while `attempt < max_retries`,
otherwise it re-raises; any other error is re-raised at once. -/
def safe_get_stat_loop (outcome : Except String α) (max_retries delay : Nat) :
    Nat → Nat → Bool → RunTrace α
  | 0, _, _ => ⟨Except.ok none, [], 0⟩
  | remaining + 1, attempt, used =>
    let st := await_coroutine outcome used
    match st.1 with
    | Except.ok a => ⟨Except.ok (some a), [], 1⟩
    | Except.error e =>
      if is_processing_error e then
        if attempt < max_retries then
          let w := delay * 2 ^ attempt
          let t := safe_get_stat_loop outcome max_retries delay remaining (attempt + 1) st.2
          ⟨t.result, w :: t.waits, t.awaitCount + 1⟩
        else ⟨Except.error e, [], 1⟩
      else ⟨Except.error e, [], 1⟩

/-- Embedding of safe_get_stat (lines 38-60).  `outcome` is the outcome of
the single execution of the coroutine argument; defaults in the source are
max_retries = 3, delay = 5. -/
def safe_get_stat (outcome : Except String α) (max_retries delay : Nat) :
    RunTrace α :=
  safe_get_stat_loop outcome max_retries delay (max_retries + 1) 0 false

/-- Claim C2: an operation failing with an error whose text contains neither
"202" nor "Accepted" is awaited exactly once; the error is re-raised
immediately, with no waiting and no further attempts. -/
theorem safe_get_stat_non_processing (α : Type) (e : String)
    (n d : Nat) (h : is_processing_error e = false) :
    safe_get_stat (Except.error e : Except String α) n d =
      ⟨Except.error e, [], 1⟩ := by
  simp [safe_get_stat, safe_get_stat_loop, await_coroutine, h]

/-- Witness for C2 at a concrete non-processing error. -/
theorem safe_get_stat_non_processing_witness :
    safe_get_stat (Except.error "HTTP 404 not found" : Except String Unit) 3 5 =
      ⟨Except.error "HTTP 404 not found", [], 1⟩ :=
  safe_get_stat_non_processing Unit "HTTP 404 not found" 3 5 (by decide)

/-- Claim C1 (divergence witness): with the default max_retries = 3 and
delay = 5, an operation whose single execution raises a processing error
("202 Accepted") is awaited, the wrapper sleeps 5 time-units once, and the
second await of the same coroutine object raises
RuntimeError "cannot reuse already awaited coroutine", which matches neither
marker and is re-raised at once: 2 awaits in total (1 real execution) and a
single wait, instead of the 4 attempts with waits 5, 10, 20 and the final
re-raise of the processing error that the claim (and the function's own
docstring and progress messages) describe. -/
theorem safe_get_stat_reuse_bug :
    safe_get_stat (Except.error "202 Accepted" : Except String Unit) 3 5 =
      ⟨Except.error "cannot reuse already awaited coroutine", [5], 2⟩ := by
  decide

/-- Embedding of calculate_days_since_first_commit (lines 28-35).  The
datetime subtraction is abstracted into its result: `days_diff` is the
calendar-day difference between the current date and 2024-08-04; the
function returns `max(days_diff, 1)`. -/
def calculate_days_since_first_commit (days_diff : Int) : Int :=
  max days_diff 1

/-- Line 89 of generate_overview:
`changed = lines_changed_data[0] + lines_changed_data[1]` (additions and
deletions are nonnegative counts). -/
def changed (additions deletions : Nat) : Nat :=
  additions + deletions

/-- Line 91 of generate_overview:
`lines_per_day = changed // days_since_first_commit if days_since_first_commit > 0 else 0`.
Python floor division agrees with Int division here since both operands are
nonnegative whenever the branch is taken. -/
def lines_per_day (changed_amount : Nat) (days : Int) : Int :=
  if 0 < days then (changed_amount : Int) / days else 0

/-- Claim C4: changed = additions + deletions (in particular 120 + 30 = 150)
and lines_per_day is truncating integer division of changed by days_active
(in particular 150 and 151 divided by 50 both give 3). -/
theorem overview_arithmetic :
    (∀ a d : Nat, changed a d = a + d) ∧
    changed 120 30 = 150 ∧
    (∀ (c : Nat) (days : Int), 0 < days →
      lines_per_day c days = (c : Int) / days) ∧
    lines_per_day 150 50 = 3 ∧
    lines_per_day 151 50 = 3 :=
  ⟨fun _ _ => rfl, rfl, fun _ days h => if_pos h, by decide, by decide⟩

/-- Witness for C4 with the division hypothesis discharged at 7 and 3. -/
theorem overview_arithmetic_witness :
    lines_per_day 7 3 = (7 : Int) / 3 :=
  overview_arithmetic.2.2.1 7 3 (by decide)

/-- Claim C5: days_active is at least 1 (hence nonzero) for every calendar
difference, including zero and negative ones, so the guarded division in
lines_per_day always takes the division branch with a nonzero divisor. -/
theorem days_active_positive :
    ∀ (diff : Int) (c : Nat),
      1 ≤ calculate_days_since_first_commit diff ∧
      calculate_days_since_first_commit diff ≠ 0 ∧
      lines_per_day c (calculate_days_since_first_commit diff) =
        (c : Int) / calculate_days_since_first_commit diff := by
  intro diff c
  have h1 : (1 : Int) ≤ calculate_days_since_first_commit diff :=
    le_max_right diff 1
  exact ⟨h1, by omega, if_pos (by omega)⟩

/-- Stable descending insertion: `a` is placed directly before the first
element whose key is ≤ key a, so earlier input elements with an equal key
stay in front of it. -/
def insertDescBy {α : Type} (key : α → Int) (a : α) : List α → List α
  | [] => [a]
  | b :: bs =>
    if key b ≤ key a then a :: b :: bs else b :: insertDescBy key a bs

/-- Stable descending sort by a key.  Python's
`sorted(..., reverse=True, key=...)` is documented to be stable with ties in
original order, and any two stable descending sorts agree on every input, so
this insertion sort computes exactly what line 133-135 computes. -/
def pySortedDescBy {α : Type} (key : α → Int) (l : List α) : List α :=
  l.foldr (insertDescBy key) []

theorem pySortedDescBy_cons {α : Type} (key : α → Int) (x : α) (xs : List α) :
    pySortedDescBy key (x :: xs) = insertDescBy key x (pySortedDescBy key xs) :=
  rfl

theorem insertDescBy_perm {α : Type} (key : α → Int) (a : α) (l : List α) :
    List.Perm (insertDescBy key a l) (a :: l) := by
  induction l with
  | nil => exact List.Perm.refl _
  | cons b bs ih =>
    by_cases h : key b ≤ key a
    · simp only [insertDescBy, if_pos h]
      exact List.Perm.refl _
    · simp only [insertDescBy, if_neg h]
      exact (ih.cons b).trans (List.Perm.swap a b bs)

theorem pairwise_insertDescBy {α : Type} (key : α → Int) (a : α) (l : List α)
    (h : l.Pairwise (fun u v => key v ≤ key u)) :
    (insertDescBy key a l).Pairwise (fun u v => key v ≤ key u) := by
  induction l with
  | nil => simp [insertDescBy]
  | cons b bs ih =>
    rcases List.pairwise_cons.mp h with ⟨hb, hbs⟩
    by_cases hk : key b ≤ key a
    · simp only [insertDescBy, if_pos hk]
      refine List.pairwise_cons.mpr ⟨?_, h⟩
      intro x hx
      rcases List.mem_cons.mp hx with rfl | hx'
      · exact hk
      · exact le_trans (hb x hx') hk
    · simp only [insertDescBy, if_neg hk]
      refine List.pairwise_cons.mpr ⟨?_, ih hbs⟩
      intro x hx
      rcases List.mem_cons.mp
        ((insertDescBy_perm key a bs).mem_iff.mp hx) with rfl | hx'
      · exact le_of_lt (not_le.mp hk)
      · exact hb x hx'

theorem filter_insertDescBy_eq {α : Type} (key : α → Int) (a : α)
    (l : List α) (v : Int) (h : key a = v) :
    (insertDescBy key a l).filter (fun x => decide (key x = v)) =
      a :: l.filter (fun x => decide (key x = v)) := by
  induction l with
  | nil => simp [insertDescBy, h]
  | cons b bs ih =>
    by_cases hk : key b ≤ key a
    · simp only [insertDescBy, if_pos hk]
      rw [List.filter_cons, if_pos (by simp [h])]
    · have hbv : ¬ key b = v := fun hb => hk (le_of_eq (hb.trans h.symm))
      simp only [insertDescBy, if_neg hk]
      rw [List.filter_cons, if_neg (by simp [hbv]), ih,
        List.filter_cons, if_neg (by simp [hbv])]

theorem filter_insertDescBy_ne {α : Type} (key : α → Int) (a : α)
    (l : List α) (v : Int) (h : ¬ key a = v) :
    (insertDescBy key a l).filter (fun x => decide (key x = v)) =
      l.filter (fun x => decide (key x = v)) := by
  induction l with
  | nil => simp [insertDescBy, h]
  | cons b bs ih =>
    by_cases hk : key b ≤ key a
    · simp only [insertDescBy, if_pos hk]
      rw [List.filter_cons, if_neg (by simp [h])]
    · simp only [insertDescBy, if_neg hk]
      rw [List.filter_cons, List.filter_cons, ih]

theorem pySortedDescBy_spec {α : Type} (key : α → Int) (l : List α) :
    (pySortedDescBy key l).Pairwise (fun u v => key v ≤ key u) ∧
    List.Perm (pySortedDescBy key l) l ∧
    ∀ v : Int, (pySortedDescBy key l).filter (fun x => decide (key x = v)) =
      l.filter (fun x => decide (key x = v)) := by
  induction l with
  | nil => exact ⟨List.Pairwise.nil, List.Perm.refl _, fun _ => rfl⟩
  | cons x xs ih =>
    obtain ⟨hp, hperm, hfil⟩ := ih
    rw [pySortedDescBy_cons]
    refine ⟨pairwise_insertDescBy _ _ _ hp,
      (insertDescBy_perm key x (pySortedDescBy key xs)).trans (hperm.cons x),
      ?_⟩
    intro v
    by_cases hx : key x = v
    · rw [filter_insertDescBy_eq _ _ _ _ hx, hfil v, List.filter_cons,
        if_pos (by simp [hx])]
    · rw [filter_insertDescBy_ne _ _ _ _ hx, hfil v, List.filter_cons,
        if_neg (by simp [hx])]

/-- A language record: value of the language-usage mapping.  The code reads
`data.get("size")` (required by the sort: a missing size would make Python's
comparison raise TypeError, and the spec's data model lists size as
required), `data.get("color")` (may be absent) and `data.get("prop", 0)`
(may be absent, defaulting to 0). -/
structure LangData where
  size : Int
  color : Option String
  prop : Option Rat

/-- Embedding of lines 133-135 of generate_languages:
`sorted(languages_data.items(), reverse=True, key=lambda t: t[1].get("size"))`.
The items() sequence of the mapping is the input list (Python dicts iterate
in insertion order). -/
def sorted_languages (languages_data : List (String × LangData)) :
    List (String × LangData) :=
  pySortedDescBy (fun t => t.2.size) languages_data

/-- Claim C3: the languages renderer orders records descending by size; the
result is a permutation of the input, and for every size value the records
carrying that size keep their original relative order (stability). -/
theorem sorted_languages_spec (l : List (String × LangData)) :
    (sorted_languages l).Pairwise (fun u v => v.2.size ≤ u.2.size) ∧
    List.Perm (sorted_languages l) l ∧
    ∀ v : Int, (sorted_languages l).filter (fun t => decide (t.2.size = v)) =
      l.filter (fun t => decide (t.2.size = v)) :=
  pySortedDescBy_spec (fun t => t.2.size) l

/-- Value of a decimal digit character. -/
def octVal (c : Char) : Nat :=
  c.toNat - '0'.toNat

/-- Octal digit test, Python's OCTDIGITS. -/
def isOctDigit (c : Char) : Bool :=
  '0' ≤ c && c ≤ '7'

/-- Numeric value of a string of decimal digits. -/
def digitsToNat (l : List Char) : Nat :=
  l.foldl (fun a c => 10 * a + octVal c) 0

/-- Scans a group name up to the closing '>': returns the name (without the
'>') and the remaining characters, or none when no '>' follows. -/
def splitGroupName : List Char → Option (List Char) × List Char
  | [] => (none, [])
  | c :: r =>
    if c = '>' then (some [], r)
    else
      let p := splitGroupName r
      (p.1.map (fun n => c :: n), p.2)

theorem splitGroupName_length (l : List Char) :
    (splitGroupName l).2.length ≤ l.length := by
  induction l with
  | nil => exact Nat.le_refl 0
  | cons c r ih =>
    by_cases hc : c = '>'
    · simp only [splitGroupName, if_pos hc]
      exact Nat.le_succ_of_le (Nat.le_refl r.length)
    · simp only [splitGroupName, if_neg hc]
      exact Nat.le_succ_of_le ih

/-- Expansion of a re.sub replacement template, following CPython's
sre_parse.parse_template for a pattern that has zero capture groups and
whose every match equals `matched` (true of the literal placeholder
patterns used in generate_images.py).  Ordinary characters are copied;
after a backslash: `g<number>` expands group 0 to the whole match and any
other group number is an invalid reference (the pattern has no groups),
`0` starts an up-to-two-digit octal escape, digit sequences are either
three-digit octal escapes or invalid group references, the letter escapes
of sre_parse.ESCAPES produce control characters, any other ASCII letter is
a bad escape, and a backslash before any other character is kept
literally.  expandEscape processes one backslash escape, returning the
expansion and the remaining characters. -/
def expandEscape (matched : List Char) : List Char → Except String (List Char × List Char)
  | [] => Except.error "bad escape (end of pattern)"
  | d :: rest2 =>
    if d = 'g' then
      match rest2 with
      | [] => Except.error "missing <"
      | e :: rest3 =>
        if e = '<' then
          let p := splitGroupName rest3
          match p.1 with
          | none => Except.error "missing >, unterminated name"
          | some name =>
            if name.isEmpty then Except.error "missing group name"
            else if name.all Char.isDigit then
              if digitsToNat name = 0 then Except.ok (matched, p.2)
              else Except.error "invalid group reference"
            else Except.error "unknown group name"
        else Except.error "missing <"
    else if d = '0' then
      match rest2 with
      | [] => Except.ok ([Char.ofNat 0], [])
      | d1 :: rest3 =>
        if isOctDigit d1 then
          match rest3 with
          | [] => Except.ok ([Char.ofNat (octVal d1)], [])
          | d2 :: rest4 =>
            if isOctDigit d2 then
              Except.ok ([Char.ofNat (8 * octVal d1 + octVal d2)], rest4)
            else Except.ok ([Char.ofNat (octVal d1)], d2 :: rest4)
        else Except.ok ([Char.ofNat 0], d1 :: rest3)
    else if d.isDigit then
      match rest2 with
      | [] => Except.error "invalid group reference"
      | d2 :: rest3 =>
        if d2.isDigit then
          match rest3 with
          | [] => Except.error "invalid group reference"
          | d3 :: rest4 =>
            if isOctDigit d && isOctDigit d2 && isOctDigit d3 then
              if 64 * octVal d + 8 * octVal d2 + octVal d3 ≤ 255 then
                Except.ok ([Char.ofNat (64 * octVal d + 8 * octVal d2 + octVal d3)], rest4)
              else Except.error "octal escape value outside of range 0-0o377"
            else Except.error "invalid group reference"
        else Except.error "invalid group reference"
    else if d = '\\' then Except.ok (['\\'], rest2)
    else if d = 'n' then Except.ok (['\n'], rest2)
    else if d = 'r' then Except.ok (['\r'], rest2)
    else if d = 't' then Except.ok (['\t'], rest2)
    else if d = 'a' then Except.ok ([Char.ofNat 7], rest2)
    else if d = 'b' then Except.ok ([Char.ofNat 8], rest2)
    else if d = 'f' then Except.ok ([Char.ofNat 12], rest2)
    else if d = 'v' then Except.ok ([Char.ofNat 11], rest2)
    else if d.isAlpha then Except.error "bad escape"
    else Except.ok (['\\', d], rest2)

/-- Template expansion driver: copies ordinary characters and hands each
backslash escape to expandEscape.  The fuel starts at the template length
and strictly exceeds the characters consumed, so the fuel-exhaustion case
is never reached from expand_template. -/
def expandTemplateFuel (matched : List Char) : Nat → List Char → Except String (List Char)
  | _, [] => Except.ok []
  | 0, l => Except.ok l
  | fuel + 1, c :: rest =>
    if c = '\\' then
      match expandEscape matched rest with
      | Except.error e => Except.error e
      | Except.ok (emitted, remaining) =>
        (expandTemplateFuel matched fuel remaining).map (fun t => emitted ++ t)
    else (expandTemplateFuel matched fuel rest).map (fun t => c :: t)

/-- Compiles and expands a replacement template against the (constant) match
text `matched`. -/
def expand_template (repl matched : String) : Except String String :=
  (expandTemplateFuel matched.data repl.data.length repl.data).map
    (fun l => String.mk l)

/-- Leftmost non-overlapping replacement of every occurrence of `tok` by
`rep`, as Python's re.sub does for a literal pattern: scanning restarts
after the end of each match.  Fuel starts at the text length and dominates
the characters consumed, so the fuel-exhaustion case is never reached from
replaceAllList. -/
def replaceAllFuel (tok rep : List Char) : Nat → List Char → List Char
  | _, [] => []
  | 0, text => text
  | fuel + 1, c :: rest =>
    if tok.isPrefixOf (c :: rest) && !tok.isEmpty then
      rep ++ replaceAllFuel tok rep fuel (List.drop (tok.length - 1) rest)
    else c :: replaceAllFuel tok rep fuel rest

def replaceAllList (tok rep text : List Char) : List Char :=
  replaceAllFuel tok rep text.length text

/-- Number of leftmost non-overlapping occurrences of `tok`, same scanning
scheme as replaceAllFuel. -/
def countOccurFuel (tok : List Char) : Nat → List Char → Nat
  | _, [] => 0
  | 0, _ => 0
  | fuel + 1, c :: rest =>
    if tok.isPrefixOf (c :: rest) && !tok.isEmpty then
      countOccurFuel tok fuel (List.drop (tok.length - 1) rest) + 1
    else countOccurFuel tok fuel rest

def countOccurList (tok text : List Char) : Nat :=
  countOccurFuel tok text.length text

/-- Embedding of `re.sub(pattern, value, text)` as called on lines 94-104
and 157-158 of generate_images.py.  Every pattern passed there is a literal
placeholder token: a brace that does not form a valid quantifier is a
literal character in Python's re, and the tokens contain no other
metacharacter, so matching is literal and every match equals the pattern.
CPython compiles the replacement template before scanning the text, so a
malformed template raises even when the pattern never occurs. -/
def re_sub (pattern repl text : String) : Except String String :=
  match expand_template repl pattern with
  | Except.error e => Except.error e
  | Except.ok r => Except.ok (String.mk (replaceAllList pattern.data r.data text.data))

theorem expandTemplateFuel_no_backslash (matched : List Char) :
    ∀ (fuel : Nat) (l : List Char), l.length ≤ fuel →
      (∀ c ∈ l, c ≠ '\\') →
      expandTemplateFuel matched fuel l = Except.ok l := by
  intro fuel
  induction fuel with
  | zero =>
    intro l hl _
    cases l with
    | nil => rfl
    | cons c rest =>
      exact absurd hl (by simp only [List.length_cons]; omega)
  | succ f ih =>
    intro l hl hb
    cases l with
    | nil => rfl
    | cons c rest =>
      have hc : ¬ c = '\\' := hb c (List.mem_cons_self c rest)
      have hl' : rest.length ≤ f := by
        simp only [List.length_cons] at hl
        omega
      rw [expandTemplateFuel, if_neg hc,
        ih rest hl' (fun x hx => hb x (List.mem_cons_of_mem c hx))]
      rfl

theorem replaceAllFuel_of_no_occur (tok rep : List Char) :
    ∀ (fuel : Nat) (text : List Char),
      countOccurFuel tok fuel text = 0 →
      replaceAllFuel tok rep fuel text = text := by
  intro fuel
  induction fuel with
  | zero =>
    intro text _
    cases text with
    | nil => rfl
    | cons c rest => rfl
  | succ f ih =>
    intro text h
    cases text with
    | nil => rfl
    | cons c rest =>
      by_cases hp : (tok.isPrefixOf (c :: rest) && !tok.isEmpty) = true
      · rw [countOccurFuel, if_pos hp] at h
        exact absurd h (Nat.succ_ne_zero _)
      · rw [countOccurFuel, if_neg hp] at h
        rw [replaceAllFuel, if_neg hp, ih rest h]

theorem replaceAllFuel_congr (tok rep : List Char) :
    ∀ (f1 : Nat), ∀ (f2 : Nat) (text : List Char),
      text.length ≤ f1 → text.length ≤ f2 →
      replaceAllFuel tok rep f1 text = replaceAllFuel tok rep f2 text := by
  intro f1
  induction f1 with
  | zero =>
    intro f2 text h1 _
    cases text with
    | nil => cases f2 <;> rfl
    | cons c rest =>
      exact absurd h1 (by simp only [List.length_cons]; omega)
  | succ f ih =>
    intro f2 text h1 h2
    cases text with
    | nil => cases f2 <;> rfl
    | cons c rest =>
      cases f2 with
      | zero => exact absurd h2 (by simp only [List.length_cons]; omega)
      | succ f2' =>
        have h1' : rest.length ≤ f := by
          simp only [List.length_cons] at h1
          omega
        have h2' : rest.length ≤ f2' := by
          simp only [List.length_cons] at h2
          omega
        rw [replaceAllFuel, replaceAllFuel]
        by_cases hp : (tok.isPrefixOf (c :: rest) && !tok.isEmpty) = true
        · rw [if_pos hp, if_pos hp]
          have hd : (List.drop (tok.length - 1) rest).length ≤ rest.length := by
            rw [List.length_drop]
            omega
          rw [ih f2' (List.drop (tok.length - 1) rest)
            (le_trans hd h1') (le_trans hd h2')]
        · rw [if_neg hp, if_neg hp]
          rw [ih f2' rest h1' h2']

theorem replaceAllList_step (tok rep rest : List Char) (htok : tok ≠ []) :
    replaceAllList tok rep (tok ++ rest) = rep ++ replaceAllList tok rep rest := by
  cases tok with
  | nil => exact absurd rfl htok
  | cons t ts =>
    have hpre : ((t :: ts).isPrefixOf (t :: (ts ++ rest)) && !(t :: ts).isEmpty) = true := by
      simp only [Bool.and_eq_true, Bool.not_eq_true', List.isEmpty_cons,
        List.isPrefixOf_iff_prefix]
      exact ⟨List.prefix_append (t :: ts) rest, trivial⟩
    rw [replaceAllList]
    rw [show ((t :: ts) ++ rest) = t :: (ts ++ rest) from rfl]
    rw [show (t :: (ts ++ rest)).length = (ts ++ rest).length + 1 from rfl]
    rw [replaceAllFuel, if_pos hpre]
    have hdrop : List.drop ((t :: ts).length - 1) (ts ++ rest) = rest := by
      simp [List.drop_left]
    rw [hdrop, replaceAllList]
    rw [replaceAllFuel_congr (t :: ts) rep ((ts ++ rest).length) rest.length rest
      (by simp only [List.length_append]; omega) (Nat.le_refl _)]

/-- Claim C6 (amended): for every non-empty placeholder token and every
substituted value containing no backslash, the substitution succeeds and is
exact-token replacement: the output is the leftmost replacement of every
occurrence of the token by the value; a text with zero occurrences is
returned unchanged; and a text starting with the token has it replaced by
the value itself. -/
theorem re_sub_exact_token (tok repl text : String)
    (htok : tok.data ≠ [])
    (hrepl : ∀ c ∈ repl.data, c ≠ '\\') :
    re_sub tok repl text =
      Except.ok (String.mk (replaceAllList tok.data repl.data text.data)) ∧
    (countOccurList tok.data text.data = 0 →
      re_sub tok repl text = Except.ok text) ∧
    (∀ rest : List Char,
      replaceAllList tok.data repl.data (tok.data ++ rest) =
        repl.data ++ replaceAllList tok.data repl.data rest) := by
  have he : expand_template repl tok = Except.ok repl := by
    rw [expand_template,
      expandTemplateFuel_no_backslash tok.data repl.data.length repl.data
        (Nat.le_refl _) hrepl]
    rfl
  refine ⟨by rw [re_sub, he], ?_, fun rest => replaceAllList_step _ _ rest htok⟩
  intro h0
  rw [re_sub, he]
  show Except.ok (String.mk (replaceAllList tok.data repl.data text.data)) =
    Except.ok text
  rw [replaceAllList,
    replaceAllFuel_of_no_occur tok.data repl.data text.data.length text.data h0]

/-- Witness for C6 at the concrete token, value and template of the overview
badge, with both hypotheses discharged by evaluation. -/
theorem re_sub_exact_token_witness :
    re_sub "\x7b\x7b stars \x7d\x7d" "1,234" "s: \x7b\x7b stars \x7d\x7d" =
      Except.ok (String.mk (replaceAllList
        "\x7b\x7b stars \x7d\x7d".data "1,234".data
        "s: \x7b\x7b stars \x7d\x7d".data)) ∧
    (countOccurList "\x7b\x7b stars \x7d\x7d".data
        "s: \x7b\x7b stars \x7d\x7d".data = 0 →
      re_sub "\x7b\x7b stars \x7d\x7d" "1,234" "s: \x7b\x7b stars \x7d\x7d" =
        Except.ok "s: \x7b\x7b stars \x7d\x7d") ∧
    (∀ rest : List Char,
      replaceAllList "\x7b\x7b stars \x7d\x7d".data "1,234".data
          ("\x7b\x7b stars \x7d\x7d".data ++ rest) =
        "1,234".data ++ replaceAllList "\x7b\x7b stars \x7d\x7d".data
          "1,234".data rest) :=
  re_sub_exact_token "\x7b\x7b stars \x7d\x7d" "1,234" "s: \x7b\x7b stars \x7d\x7d"
    (by decide) (by decide)

/-- Counterexample for C6 as frozen: with the substituted value `\g<0>`,
re.sub replaces the token occurrence with the whole match (the token
itself), not with the value, so the output differs from exact replacement
of the occurrence by the value. -/
theorem re_sub_value_counterexample :
    re_sub "\x7b\x7b name \x7d\x7d" "\\g<0>" "A \x7b\x7b name \x7d\x7d B" =
      Except.ok "A \x7b\x7b name \x7d\x7d B" ∧
    ("A \x7b\x7b name \x7d\x7d B" : String) ≠ "A \\g<0> B" := by
  constructor
  · decide
  · decide

/-- Lines 139-140 of generate_languages: `color = data.get("color")` then
`color = color if color is not None else "#000000"`. -/
def color_of (data : LangData) : String :=
  match data.color with
  | some c => c
  | none => "#000000"

/-- Line 136: `delay_between = 150`. -/
def delay_between : Nat := 150

/-- Pads a digit string with leading zeros to `d` characters. -/
def padZeros (d : Nat) (s : String) : String :=
  String.mk (List.replicate (d - s.length) '0') ++ s

/-- Rounds num * scale / den (den > 0) to the nearest integer, ties to
even — the rounding of Python's fixed-point format. -/
def roundHalfEvenScaled (num : Int) (den : Nat) (scale : Nat) : Int :=
  let sn := num * scale
  let f := Int.fdiv sn den
  let r := sn - f * den
  if 2 * r < den then f
  else if (den : Int) < 2 * r then f + 1
  else if f % 2 = 0 then f else f + 1

/-- Python's fixed-point format `f"{x:0.df}"` on a rational: round half to
even at d decimal places.  The program formats float percentages; on every
value whose double is exact (such as the integer default 0 used when `prop`
is absent) this is CPython's output. -/
def fmtFixed (d : Nat) (x : Rat) : String :=
  let sign := if x < 0 then "-" else ""
  let y := if x < 0 then -x else x
  let n := (roundHalfEvenScaled y.num y.den (10 ^ d)).toNat
  let ip := n / 10 ^ d
  let fp := n % 10 ^ d
  if d = 0 then sign ++ toString ip
  else sign ++ toString ip ++ "." ++ padZeros d (toString fp)

/-- Lines 141-145 of generate_languages: the progress-bar segment built for
one language record. -/
def progress_item (data : LangData) : String :=
  "<span style=\"background-color: " ++ color_of data ++ ";width: " ++
    fmtFixed 3 (data.prop.getD 0) ++ "%;\" class=\"progress-item\"></span>"

/-- Lines 146-155 of generate_languages: the list item built for the i-th
language record, with its animation delay i * delay_between. -/
def lang_list_item (i : Nat) (lang : String) (data : LangData) : String :=
  "\n<li style=\"animation-delay: " ++ toString (i * delay_between) ++
    "ms;\">\n<svg xmlns=\"http://www.w3.org/2000/svg\" class=\"octicon\" style=\"fill:" ++
    color_of data ++
    ";\"\nviewBox=\"0 0 16 16\" version=\"1.1\" width=\"16\" height=\"16\"><path\nfill-rule=\"evenodd\" d=\"M8 4a4 4 0 100 8 4 4 0 000-8z\"></path></svg>\n<span class=\"lang\">" ++
    lang ++ "</span>\n<span class=\"percent\">" ++
    fmtFixed 2 (data.prop.getD 0) ++ "%</span>\n</li>\n\n"

theorem string_data_append (a b : String) : (a ++ b).data = a.data ++ b.data := by
  cases a
  cases b
  rfl

theorem string_append_assoc (a b c : String) : (a ++ b) ++ c = a ++ (b ++ c) := by
  cases a
  cases b
  cases c
  show String.mk _ = String.mk _
  rw [List.append_assoc]

theorem containsSub_nil_needle (l : List Char) : containsSub l [] = true := by
  cases l with
  | nil => rfl
  | cons c t => rw [containsSub]; simp [List.isPrefixOf]

theorem containsSub_append_right (a b n : List Char)
    (h : containsSub b n = true) : containsSub (a ++ b) n = true := by
  induction a with
  | nil => simpa using h
  | cons c a' ih =>
    rw [show (c :: a') ++ b = c :: (a' ++ b) from rfl, containsSub]
    simp [ih]

theorem containsSub_append_left (a b n : List Char)
    (h : containsSub a n = true) : containsSub (a ++ b) n = true := by
  induction a with
  | nil =>
    have hn : n = [] := by
      simpa [containsSub, List.isEmpty_iff] using h
    subst hn
    exact containsSub_nil_needle b
  | cons c a' ih =>
    rw [containsSub] at h
    rw [show (c :: a') ++ b = c :: (a' ++ b) from rfl, containsSub]
    have h' : n.isPrefixOf (c :: a') = true ∨ containsSub a' n = true := by
      simpa using h
    rcases h' with hp | hc
    · obtain ⟨t, ht⟩ := List.isPrefixOf_iff_prefix.mp hp
      have hpre2 : n <+: (c :: a') ++ b := ⟨t ++ b, by rw [← List.append_assoc, ht]⟩
      simp only [Bool.or_eq_true, List.isPrefixOf_iff_prefix]
      exact Or.inl hpre2
    · simp [ih hc]

theorem strContains_append_right (a b n : String)
    (h : strContains b n = true) : strContains (a ++ b) n = true := by
  rw [strContains, string_data_append]
  exact containsSub_append_right a.data b.data n.data h

theorem strContains_append_left (a b n : String)
    (h : strContains a n = true) : strContains (a ++ b) n = true := by
  rw [strContains, string_data_append]
  exact containsSub_append_left a.data b.data n.data h

/-- Claim C7: a record with an absent color renders with #000000 both as the
bar segment's background-color and as the list item's icon fill. -/
theorem languages_default_color (i : Nat) (lang : String) (data : LangData)
    (h : data.color = none) :
    strContains (progress_item data) "background-color: #000000;" = true ∧
    strContains (lang_list_item i lang data) "fill:#000000;" = true := by
  have hco : color_of data = "#000000" := by
    rw [color_of, h]
  constructor
  · rw [progress_item, hco]
    exact strContains_append_left _ _ _
      (strContains_append_left _ _ _ (by decide))
  · rw [lang_list_item, hco]
    apply strContains_append_left
    apply strContains_append_left
    apply strContains_append_left
    apply strContains_append_left
    rw [string_append_assoc, string_append_assoc]
    apply strContains_append_right
    decide

/-- Witness for C7 at a concrete record without a color. -/
theorem languages_default_color_witness :
    strContains (progress_item ⟨10, none, some 0⟩)
      "background-color: #000000;" = true ∧
    strContains (lang_list_item 0 "Python" ⟨10, none, some 0⟩)
      "fill:#000000;" = true :=
  languages_default_color 0 "Python" ⟨10, none, some 0⟩ rfl

/-- Claim C10: a record with an absent proportion renders with the default
0: the bar segment's width is 0.000% and the list item's percentage is
0.00%, with no failure. -/
theorem languages_default_prop (i : Nat) (lang : String) (data : LangData)
    (h : data.prop = none) :
    strContains (progress_item data) "width: 0.000%;" = true ∧
    strContains (lang_list_item i lang data) ">0.00%</span>" = true := by
  have h3 : fmtFixed 3 (data.prop.getD 0) = "0.000" := by
    rw [h]
    decide
  have h2 : fmtFixed 2 (data.prop.getD 0) = "0.00" := by
    rw [h]
    decide
  constructor
  · rw [progress_item, h3]
    simp only [string_append_assoc]
    apply strContains_append_right
    apply strContains_append_right
    decide
  · rw [lang_list_item, h2]
    simp only [string_append_assoc]
    apply strContains_append_right
    apply strContains_append_right
    apply strContains_append_right
    apply strContains_append_right
    apply strContains_append_right
    apply strContains_append_right
    decide

/-- Witness for C10 at a concrete record without a proportion. -/
theorem languages_default_prop_witness :
    strContains (progress_item ⟨10, some "#ff0000", none⟩)
      "width: 0.000%;" = true ∧
    strContains (lang_list_item 1 "C" ⟨10, some "#ff0000", none⟩)
      ">0.00%</span>" = true :=
  languages_default_prop 1 "C" ⟨10, some "#ff0000", none⟩ rfl

/-- Rendering phase of generate_languages (lines 117-158): sorts the fetched
records, builds the two fragment strings in sort order, and substitutes the
two placeholder tokens.  Inputs are the text of templates/languages.svg and
the outcome of the languages fetch (line 129, already resolved to a value or
a raised error); any error propagates. -/
def generate_languages_output (template : String)
    (languages_data : Except String (List (String × LangData))) :
    Except String String :=
  match languages_data with
  | Except.error e => Except.error e
  | Except.ok data =>
    let sorted := sorted_languages data
    let progress := String.join (sorted.map (fun t => progress_item t.2))
    let lang_list := String.join (sorted.enum.map
      (fun p => lang_list_item p.1 p.2.1 p.2.2))
    match re_sub "\x7b\x7b progress \x7d\x7d" progress template with
    | Except.error e => Except.error e
    | Except.ok o1 => re_sub "\x7b\x7b lang_list \x7d\x7d" lang_list o1

/-- Lines 160-168 of generate_languages: on success the rendered text is
written to generated/languages.svg; on any failure the exception propagates
after logging and nothing is written (the output file is opened only after
rendering succeeds).  The second component lists the writes performed as
(path, content) pairs. -/
def generate_languages (template : String)
    (languages_data : Except String (List (String × LangData))) :
    Except String String × List (String × String) :=
  match generate_languages_output template languages_data with
  | Except.error e => (Except.error e, [])
  | Except.ok out => (Except.ok out, [("generated/languages.svg", out)])

/-- Association-list file system: a write prepends, a read returns the most
recent write for the path. -/
def write_file (fs : List (String × String)) (path content : String) :
    List (String × String) :=
  (path, content) :: fs

def apply_writes (fs : List (String × String)) (ws : List (String × String)) :
    List (String × String) :=
  ws.foldl (fun acc pc => write_file acc pc.1 pc.2) fs

def read_file (fs : List (String × String)) (path : String) : Option String :=
  (fs.find? (fun pc => pc.1 == path)).map (fun pc => pc.2)

theorem read_file_write_other (fs : List (String × String)) (p q c : String)
    (h : (p == q) = false) :
    read_file (write_file fs p c) q = read_file fs q := by
  rw [write_file, read_file, read_file, List.find?]
  simp only [h]

/-- Claim C9: whatever generate_languages does - fetch failure, substitution
failure or success - its writes never touch generated/overview.svg, so the
overview badge written earlier in the run reads back unchanged. -/
theorem generate_languages_frame (template : String)
    (languages_data : Except String (List (String × LangData)))
    (fs : List (String × String)) :
    read_file (apply_writes fs (generate_languages template languages_data).2)
        "generated/overview.svg" =
      read_file fs "generated/overview.svg" := by
  rw [generate_languages]
  cases generate_languages_output template languages_data with
  | error e => rfl
  | ok out =>
    show read_file (write_file fs "generated/languages.svg" out)
        "generated/overview.svg" =
      read_file fs "generated/overview.svg"
    exact read_file_write_other fs _ _ out (by decide)

/-- Python truthiness of an optional environment string: None and the empty
string are falsy (`if not access_token`, line 188). -/
def py_truthy (o : Option String) : Bool :=
  match o with
  | none => false
  | some s => !(s == "")

/-- Lines 199-207: `{x.strip() for x in var.split(",")} if var else None`.
The Python set is modelled as the list of stripped parts in order; the rest
of main only tests its truthiness, so set identity is irrelevant here. -/
def parse_exclusions (o : Option String) : Option (List String) :=
  match o with
  | none => none
  | some s =>
    if s == "" then none else some ((s.splitOn ",").map String.trim)

/-- Lines 209-213: truthy, and not equal to "false" after stripping and
lowercasing. -/
def parse_ignore_forked (o : Option String) : Bool :=
  match o with
  | none => false
  | some s => !(s == "") && !(s.trim.toLower == "false")

structure Config where
  access_token : String
  user : String
  excluded_repos : Option (List String)
  excluded_langs : Option (List String)
  ignore_forked_repos : Bool

/-- Lines 187-213 of main: the configuration phase.  ACCESS_TOKEN is read
first; when it is falsy (unset or empty) GITHUB_TOKEN is read, and if that
is falsy too the fatal token exception is raised.  GITHUB_ACTOR must be
present (`if user is None`; the empty string is accepted).  The remaining
variables are optional. -/
def main_config (env : String → Option String) : Except String Config :=
  let a0 := env "ACCESS_TOKEN"
  let a1 := if py_truthy a0 then a0 else env "GITHUB_TOKEN"
  if py_truthy a1 then
    match env "GITHUB_ACTOR" with
    | none => Except.error "Environment variable GITHUB_ACTOR must be set."
    | some user =>
      Except.ok
        { access_token := a1.getD ""
          user := user
          excluded_repos := parse_exclusions (env "EXCLUDED")
          excluded_langs := parse_exclusions (env "EXCLUDED_LANGS")
          ignore_forked_repos := parse_ignore_forked (env "EXCLUDE_FORKED_REPOS") }
  else Except.error "A personal access token is required to proceed!"

structure MainTrace where
  config : Except String Config
  session_opened : Bool

/-- Lines 187-233 of main: a raised configuration error skips the rest of
the function, so the aiohttp session and the Stats source (lines 225-233)
are opened only when the configuration phase succeeds. -/
def main_start (env : String → Option String) : MainTrace :=
  match main_config env with
  | Except.error e => ⟨Except.error e, false⟩
  | Except.ok c => ⟨Except.ok c, true⟩

/-- Claim C8 (amended): if neither credential variable holds a non-empty
value, main raises the fatal token error with no session opened; if the
username variable is unset, the configuration phase fails with no session
opened; and whenever ACCESS_TOKEN holds a non-empty value, it is the token
used (a variable set to the empty string counts as unset). -/
theorem main_config_credentials (env : String → Option String) :
    (py_truthy (env "ACCESS_TOKEN") = false →
      py_truthy (env "GITHUB_TOKEN") = false →
      main_start env =
        ⟨Except.error "A personal access token is required to proceed!", false⟩) ∧
    (env "GITHUB_ACTOR" = none →
      (main_start env).config.toOption = none ∧
      (main_start env).session_opened = false) ∧
    (∀ t : String, env "ACCESS_TOKEN" = some t → t ≠ "" →
      ∀ c : Config, main_config env = Except.ok c → c.access_token = t) := by
  refine ⟨?_, ?_, ?_⟩
  · intro h1 h2
    simp [main_start, main_config, h1, h2]
  · intro hact
    by_cases hc : py_truthy (if py_truthy (env "ACCESS_TOKEN") then
        env "ACCESS_TOKEN" else env "GITHUB_TOKEN") = true
    · simp [main_start, main_config, hc, hact, Except.toOption]
    · simp [main_start, main_config, hc, Except.toOption]
  · intro t ht hne c hcfg
    have htr : py_truthy (some t) = true := by
      simp [py_truthy, hne]
    rw [main_config] at hcfg
    simp only [ht, htr, if_true] at hcfg
    cases hact : env "GITHUB_ACTOR" with
    | none =>
      rw [hact] at hcfg
      simp at hcfg
    | some u =>
      rw [hact] at hcfg
      simp only [Except.ok.injEq] at hcfg
      rw [← hcfg]
      rfl

/-- Witness for C8 with every environment variable unset. -/
theorem main_config_credentials_witness :
    main_start (fun _ => none) =
      ⟨Except.error "A personal access token is required to proceed!", false⟩ :=
  (main_config_credentials (fun _ => none)).1 rfl rfl

/-- Counterexample for C8 as frozen: with ACCESS_TOKEN set (to the empty
string) and GITHUB_TOKEN set to "gtok", the configuration succeeds with
token "gtok": the first credential variable being set does not make it win,
because Python truthiness lets an empty value fall through to the second
variable. -/
theorem main_config_empty_token_counterexample :
    (main_config (fun s =>
        if s = "ACCESS_TOKEN" then some ""
        else if s = "GITHUB_TOKEN" then some "gtok"
        else if s = "GITHUB_ACTOR" then some "octo" else none)).map
      (fun c => c.access_token) = Except.ok "gtok" := by
  rfl

end GenerateImages
